import Mathlib

/-!
Verification development for the youtube-automation repository.

The claims under study concern four source files:
* `src/src/generators/question.py` — content safety gate `_looks_safe`,
  the local fallback bank `_local_bank`, and `generate_unique_short_spec`;
* `src/src/utils/rate_limit.py` — the persisted daily `RateLimiter`;
* `src/src/pipeline/fallback.py` — the ordered provider chain `try_chain`;
* `src/yt_auto/video.py` — the timing arithmetic of `build_short`.

Collaborator modules that the repository imports but that are absent from
the source tree (`src/state.py`, `src/utils/text.py`, `src/utils/storage.py`,
`yt_auto/config.py`) are modelled from the specification; every such
definition carries a doc comment that starts with `Modelled from the spec:`.

Python strings are modelled as Lean `String`; all character-level helpers
are written by structural recursion on `List Char` so that every concrete
instance evaluates inside the kernel.  Python floats are modelled as exact
rationals `ℚ`; Python's unbounded `int` is `ℤ` (or `ℕ` where the source
only ever produces non-negative values).
-/

set_option maxRecDepth 40000

/-- Word character in the sense of the regex class `\w`, for the ASCII
range that the banned-pattern list and all concrete inputs use:
letters, digits and the underscore. -/
def isWordChar (c : Char) : Bool :=
  c.isAlphanum || c = '_'

/-- Match a literal pattern at the head of a character list; on success
return the remaining characters after the literal. -/
def litMatch : List Char → List Char → Option (List Char)
  | [], rest => some rest
  | _ :: _, [] => none
  | p :: ps, c :: cs => if p = c then litMatch ps cs else none

/-- Word boundary to the left of the current position: start of string or a
non-word character immediately before. -/
def boundaryBefore : Option Char → Bool
  | none => true
  | some c => !(isWordChar c)

/-- Word boundary immediately after a matched literal: end of string or a
non-word character next. -/
def boundaryAfter : List Char → Bool
  | [] => true
  | c :: _ => !(isWordChar c)

/-- Match one banned pattern at the current position.  A pattern
`(w, false)` embeds the regex `\bw\b`; a pattern `(w, true)` embeds
`\bw\w*\b`, whose trailing `\w*\b` is always satisfiable once the literal
`w` matched, so only the literal and the left boundary are checked. -/
def matchPatAt (w : List Char) (wordStart : Bool) (s : List Char) : Bool :=
  match litMatch w s with
  | none => false
  | some rest => wordStart || boundaryAfter rest

/-- The banned-topic pattern list `_BANNED` of
`src/src/generators/question.py` lines 34-50: the boolean marks the
patterns that end in `\w*` (match any word starting with the stem). -/
def bannedPatterns : List (String × Bool) :=
  [("lyrics", false), ("this line", false), ("which song", false),
   ("what song", false), ("movie quote", false), ("who said", false),
   ("brand slogan", false), ("politic", true), ("election", false),
   ("terror", true), ("violence", false), ("sex", true), ("nsfw", false),
   ("drug", true), ("weapon", true)]

/-- Does any banned pattern match at the current position (given the
character immediately before it)? -/
def anyPatternAt (prev : Option Char) (s : List Char) : Bool :=
  bannedPatterns.any (fun p => boundaryBefore prev && matchPatAt p.1.data p.2 s)

/-- Scan every position of the text for a banned-pattern match, embedding
`_BANNED_RE.search`; the search is run on already-lowercased text, which
realises `re.IGNORECASE`. -/
def scanBanned (prev : Option Char) : List Char → Bool
  | [] => false
  | c :: cs => anyPatternAt prev (c :: cs) || scanBanned (some c) cs

/-- Banned-pattern search on a string, as `_BANNED_RE.search(...)`. -/
def bannedHit (s : String) : Bool :=
  scanBanned none s.data

/-- Does the needle occur at the head of the haystack? -/
def startsWithChars : List Char → List Char → Bool
  | [], _ => true
  | _ :: _, [] => false
  | p :: ps, c :: cs => p = c && startsWithChars ps cs

/-- Substring occurrence test on character lists, embedding Python's
`needle in haystack`. -/
def containsChars (needle : List Char) : List Char → Bool
  | [] => startsWithChars needle []
  | c :: cs => startsWithChars needle (c :: cs) || containsChars needle cs

/-- Substring occurrence test on strings. -/
def containsStr (needle hay : String) : Bool :=
  containsChars needle.data hay.data

/-- Split a character list into maximal whitespace-free words, the
accumulator holding the current word reversed. -/
def wordsAux : List Char → List Char → List (List Char)
  | [], acc => if acc = [] then [] else [acc.reverse]
  | c :: cs, acc =>
      if c.isWhitespace then
        if acc = [] then wordsAux cs [] else acc.reverse :: wordsAux cs []
      else wordsAux cs (c :: acc)

/-- Join words with single spaces. -/
def joinSpace : List (List Char) → List Char
  | [] => []
  | [w] => w
  | w :: ws => w ++ ' ' :: joinSpace ws

/-- Modelled from the spec: `normalize_text` of the absent module
`src/utils/text.py` — "normalize lowercases, trims, and collapses internal
whitespace".  Realised as lowercasing followed by splitting into
whitespace-separated words and re-joining with single spaces, which both
trims and collapses. -/
def normalize_text (s : String) : String :=
  ⟨joinSpace (wordsAux (s.data.map Char.toLower) [])⟩

/-- Count newline characters, embedding `question.count("\n")`. -/
def countNewlines (s : String) : Nat :=
  (s.data.filter (fun c => c = '\n')).length

/-- The content safety gate `_looks_safe` of
`src/src/generators/question.py` lines 54-69, with its checks in source
order: emptiness after normalization, normalized question length in
[8, 120], normalized answer length in [1, 60], URL-like substrings,
banned-topic patterns, and more than four newlines in the raw question. -/
def looks_safe (question answer : String) : Bool :=
  if (normalize_text question).length = 0 || (normalize_text answer).length = 0 then false
  else if (normalize_text question).length < 8 || 120 < (normalize_text question).length then false
  else if (normalize_text answer).length < 1 || 60 < (normalize_text answer).length then false
  else if containsStr "http" (normalize_text question) || containsStr "www" (normalize_text question) ||
          containsStr "http" (normalize_text answer) || containsStr "www" (normalize_text answer) then false
  else if bannedHit (normalize_text question) || bannedHit (normalize_text answer) then false
  else if 4 < countNewlines question then false
  else true

/-- Attribution of the rule that fires first in `_looks_safe`, used to
state on which grounds a pair is rejected. -/
inductive RejectReason where
  | emptyField
  | questionLength
  | answerLength
  | urlLike
  | bannedTopic
  | tooManyNewlines
deriving DecidableEq, Repr

/-- Reason-reporting decomposition of `_looks_safe`: returns the first
rule of the source-order cascade that rejects, or `none` when the pair is
accepted. -/
def validateReason (question answer : String) : Option RejectReason :=
  if (normalize_text question).length = 0 || (normalize_text answer).length = 0 then some .emptyField
  else if (normalize_text question).length < 8 || 120 < (normalize_text question).length then some .questionLength
  else if (normalize_text answer).length < 1 || 60 < (normalize_text answer).length then some .answerLength
  else if containsStr "http" (normalize_text question) || containsStr "www" (normalize_text question) ||
          containsStr "http" (normalize_text answer) || containsStr "www" (normalize_text answer) then some .urlLike
  else if bannedHit (normalize_text question) || bannedHit (normalize_text answer) then some .bannedTopic
  else if 4 < countNewlines question then some .tooManyNewlines
  else none

/-- The immutable quiz item `ShortSpec` of
`src/src/generators/question.py` lines 16-31. -/
structure ShortSpec where
  question : String
  answer : String
  category : String
  title : String
  description : String
  tags : List String
  hashtags : List String
deriving DecidableEq, Repr

/-- Modelled from the spec: the `StateStore` of the absent module
`src/state.py` (the DedupStore).  Only the operation the claims need is
kept: the membership test `is_used`, which the source invokes with the
question text alone (`state.is_used(q)` at question.py lines 250 and 263).
It is modelled as an arbitrary boolean predicate on questions, covering
every possible persisted store state. -/
structure StateStore where
  is_used : String → Bool

/-- Modelled from the spec: `random.Random` is modelled as a deterministic
stream of natural numbers together with a read position; each primitive
draw consumes one stream element.  Quantifying over all streams covers
every seed. -/
structure Rng where
  stream : Nat → Nat
  pos : Nat

/-- Draw one raw number and advance. -/
def Rng.next (r : Rng) : Nat × Rng :=
  (r.stream r.pos, ⟨r.stream, r.pos + 1⟩)

/-- Modelled `rng.choice(xs)`: pick the element indexed by the next stream
value modulo the list length (the default is never reached on the
non-empty lists the source uses). -/
def Rng.choose (r : Rng) (xs : List α) (d : α) : α × Rng :=
  let (k, r₁) := r.next
  (xs.getD (k % xs.length) d, r₁)

/-- Modelled `rng.randint(lo, hi)` (inclusive bounds): the next stream
value mapped into the interval. -/
def Rng.randint (r : Rng) (lo hi : Nat) : Nat × Rng :=
  let (k, r₁) := r.next
  (lo + k % (hi + 1 - lo), r₁)

/-- The country/capital bank of `_local_bank`, question.py lines 99-130. -/
def capitalsBank : List (String × String) :=
  [("Japan", "Tokyo"), ("France", "Paris"), ("Canada", "Ottawa"),
   ("Brazil", "Brasília"), ("Australia", "Canberra"), ("Egypt", "Cairo"),
   ("Turkey", "Ankara"), ("Mexico", "Mexico City"),
   ("Argentina", "Buenos Aires"), ("South Korea", "Seoul"),
   ("India", "New Delhi"), ("Spain", "Madrid"), ("Italy", "Rome"),
   ("Norway", "Oslo"), ("Sweden", "Stockholm"), ("Finland", "Helsinki"),
   ("Greece", "Athens"), ("Portugal", "Lisbon"), ("Poland", "Warsaw"),
   ("Netherlands", "Amsterdam"), ("Belgium", "Brussels"),
   ("Switzerland", "Bern"), ("Austria", "Vienna"), ("Ireland", "Dublin"),
   ("Denmark", "Copenhagen"), ("China", "Beijing"), ("Thailand", "Bangkok"),
   ("Vietnam", "Hanoi"), ("Indonesia", "Jakarta"),
   ("South Africa", "Pretoria")]

/-- The element/symbol bank of `_local_bank`, question.py lines 132-146. -/
def elementsBank : List (String × String) :=
  [("Hydrogen", "H"), ("Helium", "He"), ("Carbon", "C"), ("Oxygen", "O"),
   ("Sodium", "Na"), ("Potassium", "K"), ("Iron", "Fe"), ("Gold", "Au"),
   ("Silver", "Ag"), ("Copper", "Cu"), ("Mercury", "Hg"), ("Tin", "Sn"),
   ("Lead", "Pb")]

/-- The planet bank of `_local_bank`, question.py lines 148-153. -/
def planetsBank : List (String × String) :=
  [("largest planet", "Jupiter"), ("closest planet to the Sun", "Mercury"),
   ("planet known as the Red Planet", "Mars"),
   ("planet with the most famous rings", "Saturn")]

/-- Question, answer and category drawn by one `_local_bank` call
(question.py lines 155-188), threading the random stream exactly in the
order of the source draws. -/
def localBankQA (rng : Rng) : (String × String × String) × Rng :=
  let (mode, r₁) := rng.choose ["capital", "element", "planet", "math"] "capital"
  if mode = "capital" then
    let (p, r₂) := r₁.choose capitalsBank ("Japan", "Tokyo")
    (("What is the capital of " ++ p.1 ++ "?", p.2, "Geography"), r₂)
  else if mode = "element" then
    let (p, r₂) := r₁.choose elementsBank ("Hydrogen", "H")
    (("Which element has the chemical symbol \x27" ++ p.2 ++ "\x27?", p.1, "Science"), r₂)
  else if mode = "planet" then
    let (p, r₂) := r₁.choose planetsBank ("largest planet", "Jupiter")
    (("Which planet is the " ++ p.1 ++ "?", p.2, "Space"), r₂)
  else
    let (x, r₂) := r₁.randint 12 99
    let (y, r₃) := r₂.randint 3 9
    let (op, r₄) := r₃.choose ["+", "-", "×"] "+"
    if op = "+" then
      (("Solve this in your head: " ++ toString x ++ " + " ++ toString y ++ " = ?",
        toString (x + y), "Brain Teaser"), r₄)
    else if op = "-" then
      (("Solve this in your head: " ++ toString x ++ " - " ++ toString y ++ " = ?",
        toString (x - y), "Brain Teaser"), r₄)
    else
      let (m1, r₅) := r₄.randint 3 12
      let (m2, r₆) := r₅.randint 3 12
      (("Solve this in your head: " ++ toString m1 ++ " × " ++ toString m2 ++ " = ?",
        toString (m1 * m2), "Brain Teaser"), r₆)

/-- One `_local_bank` call (question.py lines 98-202): draw a
question/answer/category and package the fixed title, description, tags
and hashtags of lines 190-202. -/
def local_bank (rng : Rng) : ShortSpec × Rng :=
  let (qac, r₁) := localBankQA rng
  ({ question := qac.1,
     answer := qac.2.1,
     category := qac.2.2,
     title := "10-Second Trivia: " ++ qac.2.2 ++ " Challenge #shorts",
     description := "Can you answer in 10 seconds? Write your guess in the comments!\n\n#shorts #trivia #quiz",
     tags := ["shorts", "trivia", "quiz", "general knowledge", ⟨qac.2.2.data.map Char.toLower⟩],
     hashtags := ["#shorts", "#trivia", "#quiz"] }, r₁)

/-- Drop leading and trailing whitespace from a character list, embedding
Python's `str.strip()`. -/
def stripChars (l : List Char) : List Char :=
  ((l.dropWhile Char.isWhitespace).reverse.dropWhile Char.isWhitespace).reverse

/-- Python `str.strip()` on strings. -/
def pyStrip (s : String) : String :=
  ⟨stripChars s.data⟩

/-- Drop trailing whitespace, embedding Python's `str.rstrip()`. -/
def pyRstripChars (l : List Char) : List Char :=
  (l.reverse.dropWhile Char.isWhitespace).reverse

/-- The list branch of `_coerce_list` (question.py lines 72-78): keep the
stripped form of each entry that is non-empty after stripping.  JSON
fields are modelled as already-typed string lists; the coercion of other
JSON shapes is outside the model. -/
def coerce_list (xs : List String) : List String :=
  (xs.map pyStrip).filter (fun s => !(s = ""))

/-- Drop every leading hash sign, embedding `s.lstrip("#")`. -/
def dropLeadingHash (s : String) : String :=
  ⟨s.data.dropWhile (fun c => c = '#')⟩

/-- The hashtag fixer `_ensure_hashtag_short` (question.py lines 84-95):
strip entries, drop empties, force a leading hash sign, and put
"#shorts" first when no case variant of it is present. -/
def ensure_hashtag_short (items : List String) : List String :=
  let out := items.filterMap (fun it =>
    let s := pyStrip it
    if s = "" then none
    else if startsWithChars "#".data s.data then some s
    else some ("#" ++ dropLeadingHash s))
  if (out.map (fun x => (⟨x.data.map Char.toLower⟩ : String))).contains "#shorts" then out
  else "#shorts" :: out

/-- One parsed generation attempt: the JSON object returned by
`llm.generate_json`, with its fields already coerced to strings/lists
(the `str(obj.get(...))` steps of question.py lines 237-243 operate on
these).  `Except.error` models an exception raised inside the attempt. -/
structure LLMObj where
  question : String
  answer : String
  category : String
  title : String
  description : String
  tags : List String
  hashtags : List String

/-- The body of one generation attempt (question.py lines 236-257), from
field extraction through the safety and dedup guards to the constructed
`ShortSpec`; `none` models the raised `ValueError` that the enclosing
`except` swallows.  `clampList` stands for the absent
`src/utils/text.py` function `clamp_list`, kept abstract because no part
of the claims depends on it. -/
def attemptSpec (clampList : List String → Nat → List String)
    (state : StateStore) (obj : LLMObj) : Option ShortSpec :=
  let q := pyStrip obj.question
  let a := pyStrip obj.answer
  let cat := if pyStrip obj.category = "" then "General Knowledge" else pyStrip obj.category
  let title0 := if pyStrip obj.title = "" then "10-Second Trivia #shorts" else pyStrip obj.title
  let title := if 90 < title0.length then (⟨pyRstripChars (title0.data.take 87)⟩ : String) ++ "..." else title0
  let desc := pyStrip obj.description
  let tags := clampList (coerce_list obj.tags) 450
  let hashtags := ensure_hashtag_short (coerce_list obj.hashtags)
  if looks_safe q a then
    if state.is_used q then none
    else some
      { question := q, answer := a, category := cat, title := title,
        description := desc,
        tags := if tags = [] then ["trivia", "quiz", "shorts", "general knowledge"] else tags,
        hashtags := if hashtags = [] then ["#shorts", "#trivia", "#quiz"] else hashtags }
  else none

/-- The attempt loop of question.py lines 234-259: successive outcomes of
`llm.generate_json` are consumed in order; a raised exception or a failed
guard logs and moves on, the first accepted attempt returns. -/
def llmPhase (clampList : List String → Nat → List String)
    (state : StateStore) : List (Except String LLMObj) → Option ShortSpec
  | [] => none
  | (Except.error _) :: rest => llmPhase clampList state rest
  | (Except.ok obj) :: rest =>
      match attemptSpec clampList state obj with
      | some s => some s
      | none => llmPhase clampList state rest

/-- The local-bank fallback of question.py lines 261-265: up to `fuel`
checked draws (49 in the source, from `range(1, 50)`), then one final
draw returned without any safety or dedup check. -/
def bankLoop (state : StateStore) : Nat → Rng → ShortSpec
  | 0, rng => (local_bank rng).1
  | fuel + 1, rng =>
      if looks_safe (local_bank rng).1.question (local_bank rng).1.answer &&
         !(state.is_used (local_bank rng).1.question) then (local_bank rng).1
      else bankLoop state fuel (local_bank rng).2

/-- The checked portion of the fallback loop: the first of the `fuel`
draws that passes both guards, or `none` when every draw fails. -/
def bankLoopChecked (state : StateStore) : Nat → Rng → Option ShortSpec
  | 0, _ => none
  | fuel + 1, rng =>
      if looks_safe (local_bank rng).1.question (local_bank rng).1.answer &&
         !(state.is_used (local_bank rng).1.question) then some (local_bank rng).1
      else bankLoopChecked state fuel (local_bank rng).2

/-- The full `generate_unique_short_spec` (question.py lines 205-265):
up to six generation attempts, then the 49-draw checked fallback loop,
then the terminal unchecked `_local_bank` return. -/
def generate_unique_short_spec (clampList : List String → Nat → List String)
    (state : StateStore) (outs : List (Except String LLMObj)) (rng : Rng) : ShortSpec :=
  match llmPhase clampList state (outs.take 6) with
  | some s => s
  | none => bankLoop state 49 rng

/-- Result of the checked paths of `generate_unique_short_spec`: a
generation attempt accepted by the guards, or a fallback draw accepted by
the guards; `none` exactly when the terminal unchecked return is reached. -/
def checkedResult (clampList : List String → Nat → List String)
    (state : StateStore) (outs : List (Except String LLMObj)) (rng : Rng) : Option ShortSpec :=
  match llmPhase clampList state (outs.take 6) with
  | some s => some s
  | none => bankLoopChecked state 49 rng

/-- The persisted rate-limit record of `src/src/utils/rate_limit.py`: the
JSON object `{date, count}`, whose `date` is `None` (here `none`) in the
default used when no file exists, and whose `count` is a Python integer. -/
structure RLData where
  date : Option String
  count : ℤ
deriving DecidableEq, Repr

/-- Modelled from the spec: the persisted storage behind
`src/utils/storage.py` (absent from the source tree).  A store is the
optional persisted record; `read_json` with the default
`{"date": None, "count": 0}` of rate_limit.py lines 13, 19 and 27
returns the record or that default. -/
def read_json_rl (s : Option RLData) : RLData :=
  s.getD { date := none, count := 0 }

/-- The `RateLimiter.can_upload` method (rate_limit.py lines 12-16),
returning its boolean together with the storage, which it never writes. -/
def can_upload (max_per_day : ℤ) (s : Option RLData) (today : String) : Bool × Option RLData :=
  if (read_json_rl s).date ≠ some today then (true, s)
  else (decide ((read_json_rl s).count < max_per_day), s)

/-- The `RateLimiter.record_upload` method (rate_limit.py lines 18-24):
read-modify-write that resets the record when the stored date differs
from today, then increments and persists. -/
def record_upload (s : Option RLData) (today : String) : Option RLData :=
  if (read_json_rl s).date ≠ some today then
    some { date := some today, count := 0 + 1 }
  else
    some { date := (read_json_rl s).date, count := (read_json_rl s).count + 1 }

/-- The `RateLimiter.remaining` method (rate_limit.py lines 26-31),
returning its integer together with the storage, which it never writes. -/
def remaining (max_per_day : ℤ) (s : Option RLData) (today : String) : ℤ × Option RLData :=
  if (read_json_rl s).date ≠ some today then (max_per_day, s)
  else (max (max_per_day - (read_json_rl s).count) 0, s)

/-- Storage states reachable from the initial absent file when
`record_upload` is only ever invoked at an instant where `can_upload`
just returned `true` for the same date string — the guarded discipline of
the orchestrator, which records a publish only after the quota check
passed. -/
inductive RLReachable (max_per_day : ℤ) : Option RLData → Prop where
  | init : RLReachable max_per_day none
  | record (s : Option RLData) (today : String) :
      RLReachable max_per_day s →
      (can_upload max_per_day s today).1 = true →
      RLReachable max_per_day (record_upload s today)

/-- The raised outcome of `try_chain` in `src/src/pipeline/fallback.py`:
either a re-raised handler exception (line 18) or the fresh
`RuntimeError` for an empty chain (line 19). -/
inductive ChainErr where
  | handlerError (e : String)
  | runtimeError (msg : String)
deriving DecidableEq, Repr

/-- The warning message of fallback.py line 16. -/
def warnMsg (label : String) (idx : Nat) (e : String) : String :=
  label ++ " provider " ++ toString idx ++ " failed: " ++ e

/-- Loop of `try_chain` (fallback.py lines 10-19): handlers are modelled
by their outcomes (`Except.error` for a raised exception); `idx` is the
1-based enumeration counter, the option carries `last_error`, and the
accumulator collects the warnings logged so far (reversed). -/
def tryChainGo (label : String) (idx : Nat) :
    List (Except String τ) → Option String → List String → Except ChainErr τ × List String
  | [], some e, logs => (Except.error (ChainErr.handlerError e), logs.reverse)
  | [], none, logs => (Except.error (ChainErr.runtimeError (label ++ " chain has no providers")), logs.reverse)
  | (Except.ok v) :: _, _, logs => (Except.ok v, logs.reverse)
  | (Except.error e) :: rest, _, logs => tryChainGo label (idx + 1) rest (some e) (warnMsg label idx e :: logs)

/-- The full `try_chain` (fallback.py lines 9-19): result of the first
handler that does not raise, together with the warnings logged for the
handlers that failed before it. -/
def try_chain (label : String) (handlers : List (Except String τ)) : Except ChainErr τ × List String :=
  tryChainGo label 1 handlers none []

/-- The timing quantities computed by `build_short`
(`src/yt_auto/video.py` lines 42-48), together with the overlay
activation boundaries taken from the generated filter: the countdown
overlay is enabled on `between(t, audio_dur, audio_dur + countdown)`
(line 75) and the answer overlay on
`between(t, answer_start, answer_end)` (line 80); the output is cut at
`total` (line 102).  Floats are modelled as exact rationals. -/
structure BuildTiming where
  audio_dur : ℚ
  countdown : ℚ
  reveal : ℚ
  total : ℚ
  answer_start : ℚ
  answer_end : ℚ
  countdown_start : ℚ
  countdown_end : ℚ
deriving Repr

/-- The timing computation of `build_short` (video.py lines 42-48 and the
filter boundaries of lines 69-80). -/
def build_short_timing (audio_dur countdown_seconds reveal_seconds : ℚ) : BuildTiming :=
  { audio_dur := audio_dur,
    countdown := countdown_seconds,
    reveal := reveal_seconds,
    total := max 3 (audio_dur + countdown_seconds + reveal_seconds),
    answer_start := audio_dur + countdown_seconds,
    answer_end := (audio_dur + countdown_seconds) + reveal_seconds,
    countdown_start := audio_dur,
    countdown_end := audio_dur + countdown_seconds }

/-- The countdown overlay value of video.py line 72:
`max(0, ceil(countdown_seconds - (t - countdown_start)))` at elapsed
time `t`.  `countdown_seconds` is the configured whole number of seconds
(the absent `yt_auto/config.py` is modelled from the spec, whose display
contract "start at countdown_seconds" presupposes an integer count, as
does the `%d` rendering of the drawtext expression). -/
def countdown_display (countdown_seconds : ℕ) (countdown_start t : ℚ) : ℤ :=
  max 0 ⌈(countdown_seconds : ℚ) - (t - countdown_start)⌉

/-- Modelled from the spec: the DedupStore fingerprint as the spec words
it — "stable hash over normalize(question) + \x22|\x22 + normalize(answer)".
The SHA-256 hash is modelled as an injective function and therefore
represented by its preimage; fingerprint equality is what the dedup
decisions consume.  This definition follows the specification text and is
compared against the store keyed as the source actually calls it. -/
def spec_fingerprint (question answer : String) : String :=
  normalize_text question ++ "|" ++ normalize_text answer

/-- Modelled from the spec: the fingerprint the absent `src/state.py` can
actually compute at the call sites of question.py lines 250 and 263,
where `state.is_used(q)` receives the question alone — the spec
normalization applied to the only datum available. -/
def store_fingerprint (question : String) : String :=
  normalize_text question

/-- Modelled from the spec: a DedupStore holding a persisted list of
fingerprints, queried through the one-argument `is_used` interface that
the source uses. -/
def mkStore (fps : List String) : StateStore :=
  ⟨fun q => fps.contains (store_fingerprint q)⟩

/-- The dedup decision taken by `generate_unique_short_spec` for a
candidate pair: the store membership test on the question alone — the
`_answer` argument is not consulted by the source call
`state.is_used(q)`. -/
def code_dedup_hit (fps : List String) (question _answer : String) : Bool :=
  (mkStore fps).is_used question

/-- The dedup decision the specification describes: membership of the
two-field fingerprint among the recorded fingerprints. -/
def spec_dedup_hit (fps : List String) (question answer : String) : Bool :=
  fps.contains (spec_fingerprint question answer)

/-- A dedup-store state in which every question is recorded as used: the
local bank is finite, so a long-running deployment can reach a store that
contains every bank question, which this predicate models. -/
def allUsedStore : StateStore :=
  ⟨fun _ => true⟩

/-- A dedup-store state with nothing recorded. -/
def emptyStore : StateStore :=
  ⟨fun _ => false⟩

/-- A concrete random stream: every draw reads 0, so every `_local_bank`
call selects the capital mode and the Japan/Tokyo entry. -/
def zeroRng : Rng :=
  ⟨fun _ => 0, 0⟩

/-- A concrete instantiation of the abstract `clamp_list` collaborator
that keeps its input unchanged. -/
def clampId : List String → Nat → List String :=
  fun xs _ => xs

/-- Six generation attempts that all raise, exhausting the attempt loop. -/
def sixFails : List (Except String LLMObj) :=
  [Except.error "api_error", Except.error "api_error", Except.error "api_error",
   Except.error "api_error", Except.error "api_error", Except.error "api_error"]

/-- A well-formed parsed generation result used to exercise the accepted
path of the attempt loop. -/
def goodObj : LLMObj :=
  { question := "What is the capital of Japan?", answer := "Tokyo",
    category := "Geography", title := "Daily Quiz", description := "Fun quiz",
    tags := ["trivia"], hashtags := ["#quiz"] }

/-- The item the attempt loop constructs from `goodObj`. -/
def goodSpec : ShortSpec :=
  { question := "What is the capital of Japan?", answer := "Tokyo",
    category := "Geography", title := "Daily Quiz", description := "Fun quiz",
    tags := ["trivia"], hashtags := ["#shorts", "#quiz"] }

/-- A 133-character question (plain single-spaced ASCII, so normalization
only lowercases it): inside the [8, 150] range the claim states, outside
the [8, 120] range the source enforces. -/
def q130 : String :=
  "What is the name of the longest river that flows through the continent of South America before it finally reaches the Atlantic Ocean?"

/-- Helper: an attempt accepted by `attemptSpec` passed the safety gate
and the dedup check on its own question and answer fields. -/
theorem attemptSpec_guards (cl : List String → Nat → List String)
    (st : StateStore) (obj : LLMObj) (s : ShortSpec)
    (h : attemptSpec cl st obj = some s) :
    looks_safe s.question s.answer = true ∧ st.is_used s.question = false := by
  simp only [attemptSpec] at h
  cases hls : looks_safe (pyStrip obj.question) (pyStrip obj.answer) with
  | false => simp [hls] at h
  | true =>
    cases hu : st.is_used (pyStrip obj.question) with
    | true => simp [hls, hu] at h
    | false =>
      rw [hls, hu] at h
      simp only [if_pos rfl, if_neg Bool.false_ne_true] at h
      injection h with h
      subst h
      exact ⟨hls, hu⟩

/-- Helper: an item returned by the attempt loop passed both guards. -/
theorem llmPhase_guards (cl : List String → Nat → List String)
    (st : StateStore) (outs : List (Except String LLMObj)) (s : ShortSpec)
    (h : llmPhase cl st outs = some s) :
    looks_safe s.question s.answer = true ∧ st.is_used s.question = false := by
  induction outs with
  | nil => simp [llmPhase] at h
  | cons o rest ih =>
    cases o with
    | error e =>
      simp only [llmPhase] at h
      exact ih h
    | ok obj =>
      simp only [llmPhase] at h
      cases ha : attemptSpec cl st obj with
      | none =>
        rw [ha] at h
        exact ih h
      | some s₀ =>
        rw [ha] at h
        injection h with h
        subst h
        exact attemptSpec_guards cl st obj s₀ ha

/-- Helper: an item returned by the checked fallback loop passed both
guards. -/
theorem bankLoopChecked_guards (st : StateStore) (fuel : Nat) (rng : Rng) (s : ShortSpec)
    (h : bankLoopChecked st fuel rng = some s) :
    looks_safe s.question s.answer = true ∧ st.is_used s.question = false := by
  induction fuel generalizing rng with
  | zero => simp [bankLoopChecked] at h
  | succ n ih =>
    rw [bankLoopChecked] at h
    cases hls : looks_safe (local_bank rng).1.question (local_bank rng).1.answer with
    | false =>
      rw [hls] at h
      simp only [Bool.false_and, if_neg Bool.false_ne_true] at h
      exact ih (local_bank rng).2 h
    | true =>
      cases hu : st.is_used (local_bank rng).1.question with
      | true =>
        rw [hls, hu] at h
        simp only [Bool.not_true, Bool.and_false, if_neg Bool.false_ne_true] at h
        exact ih (local_bank rng).2 h
      | false =>
        rw [hls, hu] at h
        simp only [Bool.not_false, Bool.and_true, if_pos rfl] at h
        injection h with h
        subst h
        exact ⟨hls, hu⟩

/-- Helper: when the checked fallback loop accepts an item, the source
loop returns the same item. -/
theorem bankLoop_eq_of_checked (st : StateStore) (fuel : Nat) (rng : Rng) (s : ShortSpec)
    (h : bankLoopChecked st fuel rng = some s) :
    bankLoop st fuel rng = s := by
  induction fuel generalizing rng with
  | zero => simp [bankLoopChecked] at h
  | succ n ih =>
    rw [bankLoopChecked] at h
    rw [bankLoop]
    cases hls : looks_safe (local_bank rng).1.question (local_bank rng).1.answer with
    | false =>
      simp only [hls, Bool.false_and] at h ⊢
      simp only [if_neg Bool.false_ne_true] at h ⊢
      exact ih (local_bank rng).2 h
    | true =>
      cases hu : st.is_used (local_bank rng).1.question with
      | true =>
        simp only [hls, hu, Bool.not_true, Bool.and_false] at h ⊢
        simp only [if_neg Bool.false_ne_true] at h ⊢
        exact ih (local_bank rng).2 h
      | false =>
        simp only [hls, hu, Bool.not_false, Bool.and_true] at h ⊢
        injection h

/-- Helper: `_looks_safe` accepts exactly when the reason-reporting
decomposition reports no rejection. -/
theorem looks_safe_eq_isNone (question answer : String) :
    looks_safe question answer = (validateReason question answer).isNone := by
  unfold looks_safe validateReason
  split_ifs <;> rfl

/-- C1, counterexample: in a dedup-store state where every bank question
is already recorded (reachable because the local bank is finite), with
all six generation attempts failing and any random stream (here the
all-zeros stream, under which every draw is the Japan/Tokyo item), the
returned item's question IS recorded as used — refuting "for every state
of the dedup store and every random seed, ... is_used(question) is false
at return time". -/
theorem claim_C1_counterexample :
    (generate_unique_short_spec clampId allUsedStore sixFails zeroRng).question
        = "What is the capital of Japan?" ∧
    allUsedStore.is_used
        (generate_unique_short_spec clampId allUsedStore sixFails zeroRng).question = true := by
  constructor
  · decide
  · decide

/-- C1, amended: every item returned by a checked path of
`generate_unique_short_spec` — an accepted generation attempt or one of
the 49 checked local-bank draws — passes the safety gate and is not
recorded as used; only the terminal unchecked `_local_bank` return
(taken exactly when `checkedResult` is `none`) escapes the guards. -/
theorem claim_C1_amended (clampList : List String → Nat → List String)
    (state : StateStore) (outs : List (Except String LLMObj)) (rng : Rng) (r : ShortSpec)
    (h : checkedResult clampList state outs rng = some r) :
    looks_safe r.question r.answer = true ∧ state.is_used r.question = false ∧
      generate_unique_short_spec clampList state outs rng = r := by
  unfold checkedResult at h
  unfold generate_unique_short_spec
  cases hp : llmPhase clampList state (outs.take 6) with
  | some s =>
    simp only [hp] at h ⊢
    obtain ⟨h1, h2⟩ := llmPhase_guards clampList state (outs.take 6) s hp
    cases h
    exact ⟨h1, h2, rfl⟩
  | none =>
    simp only [hp] at h ⊢
    obtain ⟨h1, h2⟩ := bankLoopChecked_guards state 49 rng r h
    exact ⟨h1, h2, bankLoop_eq_of_checked state 49 rng r h⟩

/-- C1, witness: a concrete accepted generation attempt, on an empty
store, satisfies the amended guarantee. -/
theorem claim_C1_witness :
    looks_safe goodSpec.question goodSpec.answer = true ∧
    emptyStore.is_used goodSpec.question = false ∧
    generate_unique_short_spec clampId emptyStore [Except.ok goodObj] zeroRng = goodSpec :=
  claim_C1_amended clampId emptyStore [Except.ok goodObj] zeroRng goodSpec (by decide)

/-- C2, counterexample: with `max_per_day = 1`, two unguarded
`record_upload` calls on the same date drive the persisted count to 2,
exceeding the configured daily maximum — refuting preservation of the
invariant under every sequence of calls. -/
theorem claim_C2_counterexample :
    (read_json_rl (record_upload (record_upload none "2025-06-01") "2025-06-01")).count = 2 ∧
    ¬ ((read_json_rl (record_upload (record_upload none "2025-06-01") "2025-06-01")).count ≤ (1 : ℤ)) := by
  constructor
  · decide
  · decide

/-- C2, amended: for `max_per_day ≥ 1`, the stored count never exceeds
the daily maximum across every sequence of operations in which each
`record_upload` happens only when `can_upload` just returned true (the
orchestrator's discipline), and `remaining` is never negative. -/
theorem claim_C2_amended (max_per_day : ℤ) (s : Option RLData) (probe_day : String)
    (hmax : 1 ≤ max_per_day) (hreach : RLReachable max_per_day s) :
    (read_json_rl s).count ≤ max_per_day ∧
    0 ≤ (remaining max_per_day s probe_day).1 := by
  have hcount : (read_json_rl s).count ≤ max_per_day := by
    induction hreach with
    | init =>
      simp [read_json_rl]
      linarith
    | record s' today hs hcan ih =>
      unfold record_upload
      by_cases hd : (read_json_rl s').date ≠ some today
      · rw [if_pos hd]
        show (0 : ℤ) + 1 ≤ max_per_day
        linarith
      · rw [if_neg hd]
        unfold can_upload at hcan
        rw [if_neg hd] at hcan
        have hlt : (read_json_rl s').count < max_per_day := of_decide_eq_true hcan
        show (read_json_rl s').count + 1 ≤ max_per_day
        linarith
  refine ⟨hcount, ?_⟩
  unfold remaining
  by_cases hd : (read_json_rl s).date ≠ some probe_day
  · rw [if_pos hd]
    linarith
  · rw [if_neg hd]
    exact le_max_right _ _

/-- C2, witness: one guarded publish under `max_per_day = 1` keeps the
stored count within bounds and the remaining quota non-negative. -/
theorem claim_C2_witness :
    (read_json_rl (record_upload none "2025-06-02")).count ≤ 1 ∧
    0 ≤ (remaining 1 (record_upload none "2025-06-02") "2025-06-03").1 :=
  claim_C2_amended 1 (record_upload none "2025-06-02") "2025-06-03" (by decide)
    (RLReachable.record none "2025-06-02" RLReachable.init (by decide))

/-- C3: for narration at least the 3-second floor of `build_short` and
non-negative countdown and reveal lengths, the countdown overlay starts
exactly at the narration end, the answer overlay starts at
narration + countdown, and the rendered total equals
reveal start + reveal = narration + countdown + reveal (exactly, hence
within any floating tolerance). -/
theorem claim_C3 (n c r : ℚ) (hn : 3 ≤ n) (hc : 0 ≤ c) (hr : 0 ≤ r) :
    (build_short_timing n c r).countdown_start = n ∧
    (build_short_timing n c r).answer_start = n + c ∧
    (build_short_timing n c r).total = (build_short_timing n c r).answer_start + r ∧
    (build_short_timing n c r).total = n + c + r := by
  unfold build_short_timing
  refine ⟨rfl, rfl, ?_, ?_⟩
  · show max 3 (n + c + r) = (n + c) + r
    rw [max_eq_right (by linarith)]
  · show max 3 (n + c + r) = n + c + r
    rw [max_eq_right (by linarith)]

/-- C3, witness: the timing identities at a 5-second narration with a
10-second countdown and 3-second reveal. -/
theorem claim_C3_witness :
    (build_short_timing 5 10 3).countdown_start = 5 ∧
    (build_short_timing 5 10 3).answer_start = 5 + 10 ∧
    (build_short_timing 5 10 3).total = (build_short_timing 5 10 3).answer_start + 3 ∧
    (build_short_timing 5 10 3).total = 5 + 10 + 3 :=
  claim_C3 5 10 3 (by norm_num) (by norm_num) (by norm_num)

/-- C4, counterexample: a 133-character question lies inside the
[8, 150] range the claim asserts is never rejected for question length,
yet the gate rejects it, and specifically on question-length grounds —
the source bound is 120, not 150. -/
theorem claim_C4_counterexample :
    8 ≤ q130.length ∧ q130.length ≤ 150 ∧
    validateReason q130 "Tokyo" = some RejectReason.questionLength ∧
    looks_safe q130 "Tokyo" = false := by
  refine ⟨by decide, by decide, by decide, by decide⟩

/-- C4, amended: the gate rejects whenever the normalized question length
is below 8 or above 120; a question whose normalized length lies in
[8, 120] is never rejected on question-length grounds; and the gate
accepts exactly when no rule of the cascade rejects. -/
theorem claim_C4_amended (question answer : String) :
    ((normalize_text question).length < 8 ∨ 120 < (normalize_text question).length →
      looks_safe question answer = false) ∧
    (8 ≤ (normalize_text question).length → (normalize_text question).length ≤ 120 →
      validateReason question answer ≠ some RejectReason.questionLength) ∧
    looks_safe question answer = (validateReason question answer).isNone := by
  refine ⟨?_, ?_, looks_safe_eq_isNone question answer⟩
  · intro h
    unfold looks_safe
    split_ifs with h1 h2 h3 h4 h5 h6
    · rfl
    · rfl
    · rfl
    · rfl
    · rfl
    · rfl
    · exfalso
      apply h2
      simp only [Bool.or_eq_true, decide_eq_true_eq]
      exact h
  · intro h8 h120
    unfold validateReason
    split_ifs with h1 h2 h3 h4 h5 h6 <;>
      first
        | decide
        | (simp only [Bool.or_eq_true, decide_eq_true_eq] at h2; omega)

/-- C4, witness: the out-of-bounds direction at the 133-character
question, and the in-bounds direction at an ordinary question. -/
theorem claim_C4_witness :
    looks_safe q130 "Paris" = false ∧
    validateReason "What is the capital of France?" "Paris" ≠ some RejectReason.questionLength :=
  ⟨(claim_C4_amended q130 "Paris").1 (by decide),
   (claim_C4_amended "What is the capital of France?" "Paris").2.1 (by decide) (by decide)⟩

/-- C5: on the chain [A raises, B returns "x"], `try_chain` returns
B's "x", the single log entry records A's failure (provider 1 with A's
error), and A's exception is not propagated (the outcome is a success,
not an error). -/
theorem claim_C5 (label eA : String) :
    try_chain label [Except.error eA, Except.ok "x"]
      = (Except.ok "x", [warnMsg label 1 eA]) := rfl

/-- Helper: when every handler raises, the loop of `try_chain` ends by
re-raising the last handler's error, whatever the running index, the
previously recorded error and the log accumulator. -/
theorem tryChainGo_last_error (label : String) (es : List String) (e : String) :
    ∀ (idx : Nat) (prev : Option String) (logs : List String), es.getLast? = some e →
      (tryChainGo label idx (es.map Except.error : List (Except String String)) prev logs).1
        = Except.error (ChainErr.handlerError e) := by
  induction es with
  | nil =>
    intro idx prev logs h
    simp at h
  | cons a as ih =>
    intro idx prev logs h
    cases as with
    | nil =>
      simp at h
      subst h
      rfl
    | cons b bs =>
      rw [List.getLast?_cons_cons] at h
      exact ih (idx + 1) (some a) (warnMsg label idx a :: logs) h

/-- C6: for every non-empty provider sequence in which every provider
raises, `try_chain` fails with the error of the last provider — neither
a success nor an unrelated error. -/
theorem claim_C6 (label : String) (es : List String) (e : String)
    (h : es.getLast? = some e) :
    (try_chain label (es.map Except.error : List (Except String String))).1
      = Except.error (ChainErr.handlerError e) :=
  tryChainGo_last_error label es e 1 none [] h

/-- C6, witness: a two-provider chain whose providers raise "one" and
"two" fails with "two". -/
theorem claim_C6_witness :
    (try_chain "seo" (["one", "two"].map Except.error : List (Except String String))).1
      = Except.error (ChainErr.handlerError "two") :=
  claim_C6 "seo" ["one", "two"] "two" (by decide)

/-- C7, counterexample: after one accepted item (Japan question, answer
"Tokyo") is recorded, the code's dedup decision blocks the candidate
(same question, answer "Osaka") even though the spec's two-field
fingerprint of that candidate is not among the recorded spec
fingerprints — the dedup decision does not depend on the answer. -/
theorem claim_C7_counterexample :
    code_dedup_hit [store_fingerprint "What is the capital of Japan?"]
        "What is the capital of Japan?" "Osaka" = true ∧
    spec_dedup_hit [spec_fingerprint "What is the capital of Japan?" "Tokyo"]
        "What is the capital of Japan?" "Osaka" = false := by
  constructor
  · decide
  · decide

/-- C7, amended: the fingerprint backing the dedup decision is computed
from the normalized question only: a question equal to a recorded one up
to case and whitespace is always blocked (variants cannot bypass dedup),
and the answer plays no part in the decision. -/
theorem claim_C7_amended (fps : List String) (q₀ q₁ a₁ a₂ : String)
    (h : normalize_text q₁ = normalize_text q₀) :
    code_dedup_hit (store_fingerprint q₀ :: fps) q₁ a₁ = true ∧
    code_dedup_hit fps q₁ a₁ = code_dedup_hit fps q₁ a₂ := by
  constructor
  · simp [code_dedup_hit, mkStore, store_fingerprint, h, List.contains_cons]
  · rfl

/-- C7, witness: a case/whitespace variant of a recorded question is
blocked, for any pair of answers. -/
theorem claim_C7_witness :
    code_dedup_hit (store_fingerprint "What is the capital of Japan?" :: [])
        "what is  the capital of JAPAN?" "Osaka" = true ∧
    code_dedup_hit [] "what is  the capital of JAPAN?" "Osaka"
      = code_dedup_hit [] "what is  the capital of JAPAN?" "Tokyo" :=
  claim_C7_amended [] "What is the capital of Japan?" "what is  the capital of JAPAN?"
    "Osaka" "Tokyo" (by decide)

/-- C8: when the persisted date differs from the current calendar date,
`can_upload` answers true and `remaining` answers the full daily maximum,
and neither operation changes the persisted state. -/
theorem claim_C8 (max_per_day : ℤ) (s : Option RLData) (today : String)
    (h : (read_json_rl s).date ≠ some today) :
    (can_upload max_per_day s today).1 = true ∧
    (can_upload max_per_day s today).2 = s ∧
    (remaining max_per_day s today).1 = max_per_day ∧
    (remaining max_per_day s today).2 = s := by
  unfold can_upload remaining
  rw [if_pos h, if_pos h]
  exact ⟨rfl, rfl, rfl, rfl⟩

/-- C8, witness: a stored record from the previous day is read as a fresh
day and left untouched. -/
theorem claim_C8_witness :
    (can_upload 5 (some { date := some "2025-06-01", count := 3 }) "2025-06-02").1 = true ∧
    (can_upload 5 (some { date := some "2025-06-01", count := 3 }) "2025-06-02").2
      = some { date := some "2025-06-01", count := 3 } ∧
    (remaining 5 (some { date := some "2025-06-01", count := 3 }) "2025-06-02").1 = 5 ∧
    (remaining 5 (some { date := some "2025-06-01", count := 3 }) "2025-06-02").2
      = some { date := some "2025-06-01", count := 3 } :=
  claim_C8 5 (some { date := some "2025-06-01", count := 3 }) "2025-06-02" (by decide)

/-- C9: the countdown display value is non-increasing in elapsed time,
equals the configured countdown at the phase start, and is exactly 0 at
the phase boundary, for every whole-second countdown length. -/
theorem claim_C9 (c : ℕ) (s t₁ t₂ : ℚ) (h : t₁ ≤ t₂) :
    countdown_display c s t₂ ≤ countdown_display c s t₁ ∧
    countdown_display c s s = (c : ℤ) ∧
    countdown_display c s (s + (c : ℚ)) = 0 := by
  unfold countdown_display
  refine ⟨?_, ?_, ?_⟩
  · exact max_le_max le_rfl (Int.ceil_le_ceil (by linarith))
  · rw [sub_self, sub_zero, Int.ceil_natCast]
    exact max_eq_right (Int.natCast_nonneg c)
  · rw [add_sub_cancel_left, sub_self, Int.ceil_zero, max_self]

/-- C9, witness: the three countdown-display properties at a 10-second
countdown starting at 5 seconds, sampled at times 6 and 7. -/
theorem claim_C9_witness :
    countdown_display 10 5 7 ≤ countdown_display 10 5 6 ∧
    countdown_display 10 5 5 = ((10 : ℕ) : ℤ) ∧
    countdown_display 10 5 (5 + ((10 : ℕ) : ℚ)) = 0 :=
  claim_C9 10 5 6 7 (by norm_num)

/-- C10: on an empty provider sequence `try_chain` raises the dedicated
"chain has no providers" RuntimeError, which is distinct from every
re-raised handler error and is not a successful result. -/
theorem claim_C10 (label e v : String) :
    try_chain label ([] : List (Except String String))
        = (Except.error (ChainErr.runtimeError (label ++ " chain has no providers")), []) ∧
    ChainErr.runtimeError (label ++ " chain has no providers") ≠ ChainErr.handlerError e ∧
    (Except.error (ChainErr.runtimeError (label ++ " chain has no providers"))
        : Except ChainErr String) ≠ Except.ok v := by
  refine ⟨rfl, ?_, ?_⟩
  · intro hcontra
    exact ChainErr.noConfusion hcontra
  · intro hcontra
    exact Except.noConfusion hcontra

/-- C10, witness: the empty-chain behaviour at a concrete label. -/
theorem claim_C10_witness :
    try_chain "tts" ([] : List (Except String String))
        = (Except.error (ChainErr.runtimeError ("tts" ++ " chain has no providers")), []) ∧
    ChainErr.runtimeError ("tts" ++ " chain has no providers") ≠ ChainErr.handlerError "boom" ∧
    (Except.error (ChainErr.runtimeError ("tts" ++ " chain has no providers"))
        : Except ChainErr String) ≠ Except.ok "ok" :=
  claim_C10 "tts" "boom" "ok"
